import Mathlib

/-!
# Verification of the job-listing filter widget (src/js/jobs.js)

Shallow embedding of the client-side job-board filter widget: the job data
model, the filter engine inside renderJobs, the HTML string builders
(createJobCard, the filter-bar chips of updateFilterBar), the data loader
(fetchJobs) over an abstract fetch outcome, and the interaction
transitions (addFilter, removeFilter, the clear-all handler) as a state
machine over an application state holding the active-filter set, the job
list and the two written DOM regions.

JavaScript values are modelled as follows: a JS Set of tag strings becomes
a `List String` in insertion order (membership-tested, duplicate-free by
construction of the transitions); arrays become `List`; template-literal
output becomes `String`; innerHTML assignment becomes a field update of a
`Dom` record; a thrown exception becomes `Except.error`. A second, raw
record type `JobR` with optional fields embeds the same functions over
possibly-malformed job records, where an absent field is `none`.
-/

namespace JobListing

/-- A job record with every field present, as described by the data-file
shape consumed by jobs.js (company, logo, position, role, level,
languages, tools, postedAt, contract, location, new, featured). -/
structure Job where
  company : String
  logo : String
  position : String
  role : String
  level : String
  languages : List String
  tools : List String
  postedAt : String
  contract : String
  location : String
  new : Bool
  featured : Bool
deriving DecidableEq

/-- The tag array a job contributes, from
`[job.role, job.level, ...job.languages, ...job.tools]` (built identically
in createJobCard line 21 and renderJobs line 61). -/
def jobTagList (j : Job) : List String :=
  [j.role, j.level] ++ j.languages ++ j.tools

/-- The filter engine inside renderJobs (lines 59-65): keep a job when the
active-filter set is empty, otherwise when every active filter is a member
of the tag set built from the job. The JS Set collapses duplicates; since
only membership is queried, the list with duplicates is
membership-equivalent. -/
def visibleJobs (jobs : List Job) (activeFilters : List String) : List Job :=
  jobs.filter fun job =>
    if activeFilters.length == 0 then true
    else activeFilters.all fun f => (jobTagList job).contains f

/-- The derived tag set of a job, duplicates collapsed (the JS Set built
on renderJobs line 61). -/
def jobTagSet (j : Job) : Finset String :=
  (jobTagList j).toFinset

/-- Concatenation of a list of strings: the model of every
`.map(...).join(QQ)` in the source (join on the empty separator). -/
def joinAll : List String → String
  | [] => ""
  | s :: rest => s ++ joinAll rest

/-- One tag badge from createJobCard (lines 24-26). The tag value is
interpolated verbatim, twice: into the data-tag attribute and into the
visible text between the opening and closing span tags. -/
def tagSpanHtml (tag : String) : String :=
  "\n        <span class=\"badge tag filter-tag\" data-tag=\"" ++ tag ++ "\">"
    ++ tag ++ "</span>\n    "

/-- Joined tag badges of the tag array of a job (tagsHtml in
createJobCard; duplicates kept, as in the plain array of the source). -/
def tagsHtml (j : Job) : String :=
  joinAll ((jobTagList j).map tagSpanHtml)

/-- createJobCard (lines 20-54): the job-card template literal with every
interpolation spliced verbatim; the ternaries on `job.new` and
`job.featured` become conditionals on the booleans. -/
def createJobCard (j : Job) : String :=
  "\n        <div class=\"card mb-4 job-card\">\n        \n            <div class=\"card-body\">\n                <div class=\"d-flex align-items-center head mb-3\">\n                <img src=\""
  ++ j.logo
  ++ "\" alt=\"" ++ j.company ++ " logo\" class=\"me-3\" width=\"50\" height=\"50\">\n                    <h5 class=\"card-title\">"
  ++ j.company
  ++ "</h5>\n                    "
  ++ (if j.new then "<span class=\"badge new mx-2\">New!</span>" else "")
  ++ " \n                    "
  ++ (if j.featured then "<span class=\"badge featured\">Featured</span>" else "")
  ++ "\n                </div>\n                <div class=\"d-flex jobs\">\n                <h4 class=\"heads\">"
  ++ j.position
  ++ "</h4> \n                <div class=\"tools\">"
  ++ tagsHtml j
  ++ "</div>\n                </div>\n                <p class=\"text-muted mute\">"
  ++ j.postedAt ++ " · " ++ j.contract ++ " · " ++ j.location
  ++ "</p>\n            </div>\n                <div class=\"bottom\">\n                <hr>\n                <div>"
  ++ tagsHtml j
  ++ "</div>\n                </div>\n        </div>\n    "

/-- One removable filter chip from updateFilterBar (lines 93-98), with the
filter value interpolated verbatim into the chip text and into the
data-filter attribute of the close button (the removal-lookup attribute
read back by the delegated click handler via dataset.filter). -/
def chipHtml (f : String) : String :=
  "\n            <span class=\"badge btn2\">\n                "
  ++ f
  ++ "\n                <button type=\"button\" class=\"btn-close close btn-close-white\" aria-label=\"Close\" "
  ++ ("data-filter=\"" ++ f ++ "\"")
  ++ "></button> \n            </span>\n        "

/-- The two view regions the script writes: the innerHTML of job-listings,
the display style of the filter bar (`true` = block, `false` = none), and
the innerHTML of filter-tags. -/
@[ext]
structure Dom where
  jobListHtml : String
  filterBarVisible : Bool
  filterChipsHtml : String
deriving DecidableEq

/-- The page-lifetime state: activeFilters (a JS Set, modelled as its
insertion-ordered duplicate-free element list), jobs, and the DOM. -/
@[ext]
structure AppState where
  activeFilters : List String
  jobs : List Job
  dom : Dom
deriving DecidableEq

/-- renderJobs (lines 56-70) as a DOM write: sets the innerHTML of
job-listings to the joined cards of the visible jobs. -/
def renderJobsDom (jobs : List Job) (filters : List String) (dom : Dom) : Dom :=
  { dom with jobListHtml := joinAll ((visibleJobs jobs filters).map createJobCard) }

/-- updateFilterBar (lines 87-102): when the set is non-empty, show the
bar and rewrite the chip container from the active filters; when empty,
only set display to none (the innerHTML of the chip container is left as
it was — invisible, since the bar is hidden). -/
def updateFilterBar (filters : List String) (dom : Dom) : Dom :=
  if filters.length > 0 then
    { dom with filterBarVisible := true,
               filterChipsHtml := joinAll (filters.map chipHtml) }
  else
    { dom with filterBarVisible := false }

/-- renderJobs as a transition on the application state (reads jobs and
activeFilters, writes only the job-list region). -/
def renderJobsS (s : AppState) : AppState :=
  { s with dom := renderJobsDom s.jobs s.activeFilters s.dom }

/-- updateFilterBar as a transition on the application state. -/
def updateFilterBarS (s : AppState) : AppState :=
  { s with dom := updateFilterBar s.activeFilters s.dom }

/-- addFilter (lines 73-77): `activeFilters.add(filter)` (a JS Set add: no
change when present, append in insertion order when absent), then
updateFilterBar, then renderJobs. -/
def addFilter (f : String) (s : AppState) : AppState :=
  let filters := if f ∈ s.activeFilters then s.activeFilters else s.activeFilters ++ [f]
  { s with activeFilters := filters,
           dom := renderJobsDom s.jobs filters (updateFilterBar filters s.dom) }

/-- removeFilter (lines 80-84): `activeFilters.delete(filter)` (drop the
element equal to the filter, keep the order of the rest), then
updateFilterBar, then renderJobs. -/
def removeFilter (f : String) (s : AppState) : AppState :=
  let filters := s.activeFilters.filter fun x => x != f
  { s with activeFilters := filters,
           dom := renderJobsDom s.jobs filters (updateFilterBar filters s.dom) }

/-- The clear-filters click listener (lines 105-109):
`activeFilters.clear()`, then updateFilterBar, then renderJobs. -/
def clearFilters (s : AppState) : AppState :=
  { s with activeFilters := [],
           dom := renderJobsDom s.jobs [] (updateFilterBar [] s.dom) }

/-- The DOM agrees with the state: the job-list region shows the rendered
visible jobs, the bar is visible exactly when filters exist, and a visible
bar shows the chips of the active filters. Every state produced by
addFilter, removeFilter or clearFilters satisfies this. -/
def Synced (s : AppState) : Prop :=
  s.dom.jobListHtml = joinAll ((visibleJobs s.jobs s.activeFilters).map createJobCard)
  ∧ s.dom.filterBarVisible = !s.activeFilters.isEmpty
  ∧ (s.activeFilters ≠ [] → s.dom.filterChipsHtml = joinAll (s.activeFilters.map chipHtml))

/-! ## The data loader (fetchJobs, lines 6-17) -/

/-- An HTTP response as fetchJobs inspects it: the ok flag, and the result
of parsing the body as JSON (`none` when `response.json()` rejects,
otherwise the decoded job array). -/
structure FetchResponse where
  ok : Bool
  body : Option (List Job)
deriving DecidableEq

/-- The outcome of the fetch call: the promise rejects (network error), or
a response arrives. -/
inductive FetchOutcome where
  | networkError : FetchOutcome
  | response : FetchResponse → FetchOutcome
deriving DecidableEq

/-- What fetchJobs leaves behind: the jobs variable, whether console.error
ran, and whether renderJobs was invoked. -/
structure LoaderResult where
  jobs : List Job
  loggedError : Bool
  rendered : Bool
deriving DecidableEq

/-- The try block of fetchJobs (lines 8-13): await the fetch (a network
error throws), throw on a non-ok response, await the JSON parse (a parse
failure throws), otherwise assign jobs and call renderJobs. -/
def fetchJobsTry (o : FetchOutcome) : Except String (List Job × Bool) :=
  match o with
  | .networkError => .error "TypeError: failed to fetch"
  | .response r =>
    if !r.ok then .error "Failed to load jobs"
    else
      match r.body with
      | none => .error "SyntaxError: unexpected token"
      | some payload => .ok (payload, true)

/-- fetchJobs (lines 6-17): run the try block; on any throw, the catch
logs via console.error and swallows the error, leaving the jobs variable
as it was (empty at startup). Totality of this function embeds that no
error escapes the catch. -/
def fetchJobs (jobs0 : List Job) (o : FetchOutcome) : LoaderResult :=
  match fetchJobsTry o with
  | .ok (js, rendered) => ⟨js, false, rendered⟩
  | .error _ => ⟨jobs0, true, false⟩

/-- A failing fetch outcome as the claim enumerates them: network error,
non-success status, or a payload that fails to parse as JSON. -/
def FetchOutcome.failing : FetchOutcome → Prop
  | .networkError => True
  | .response r => r.ok = false ∨ r.body = none

/-! ## Raw job records with possibly-absent fields -/

/-- A raw job record as it may arrive from the data file: every field
possibly absent (`none` models a missing field, i.e. `undefined`). -/
structure JobR where
  company : Option String
  logo : Option String
  position : Option String
  role : Option String
  level : Option String
  languages : Option (List String)
  tools : Option (List String)
  postedAt : Option String
  contract : Option String
  location : Option String
  new : Option Bool
  featured : Option Bool
deriving DecidableEq

/-- Template-literal interpolation of a possibly-undefined value: an
undefined field prints as the text undefined. -/
def jsStr : Option String → String
  | some s => s
  | none => "undefined"

/-- JS truthiness of a possibly-undefined boolean field: undefined is
falsy. -/
def jsTruthy : Option Bool → Bool
  | some b => b
  | none => false

/-- The array spread `...v`: spreading an undefined value throws a
TypeError; spreading an array yields its elements. -/
def spreadR : Option (List String) → Except String (List String)
  | some l => .ok l
  | none => .error "TypeError: undefined is not iterable"

/-- The tag array `[job.role, job.level, ...job.languages, ...job.tools]`
over a raw record: role and level contribute their possibly-undefined
values directly; the two spreads throw on an absent field, in
left-to-right order. Used by createJobCard (line 21) and renderJobs
(line 61). -/
def jobTagListR (j : JobR) : Except String (List (Option String)) :=
  match spreadR j.languages with
  | .error e => .error e
  | .ok ls =>
    match spreadR j.tools with
    | .error e => .error e
    | .ok ts => .ok ([j.role, j.level] ++ ls.map some ++ ts.map some)

/-- tagsHtml of createJobCard over a raw record: each tag (a possibly-
undefined value) is interpolated through `jsStr`. -/
def tagsHtmlR (j : JobR) : Except String String :=
  match jobTagListR j with
  | .error e => .error e
  | .ok tags => .ok (joinAll (tags.map fun t => tagSpanHtml (jsStr t)))

/-- createJobCard over a raw record: the same template, with undefined
text fields printing as undefined and undefined booleans falsy; the tag
array computation may throw. -/
def createJobCardR (j : JobR) : Except String String :=
  match tagsHtmlR j with
  | .error e => .error e
  | .ok th => .ok (
      "\n        <div class=\"card mb-4 job-card\">\n        \n            <div class=\"card-body\">\n                <div class=\"d-flex align-items-center head mb-3\">\n                <img src=\""
      ++ jsStr j.logo
      ++ "\" alt=\"" ++ jsStr j.company ++ " logo\" class=\"me-3\" width=\"50\" height=\"50\">\n                    <h5 class=\"card-title\">"
      ++ jsStr j.company
      ++ "</h5>\n                    "
      ++ (if jsTruthy j.new then "<span class=\"badge new mx-2\">New!</span>" else "")
      ++ " \n                    "
      ++ (if jsTruthy j.featured then "<span class=\"badge featured\">Featured</span>" else "")
      ++ "\n                </div>\n                <div class=\"d-flex jobs\">\n                <h4 class=\"heads\">"
      ++ jsStr j.position
      ++ "</h4> \n                <div class=\"tools\">"
      ++ th
      ++ "</div>\n                </div>\n                <p class=\"text-muted mute\">"
      ++ jsStr j.postedAt ++ " · " ++ jsStr j.contract ++ " · " ++ jsStr j.location
      ++ "</p>\n            </div>\n                <div class=\"bottom\">\n                <hr>\n                <div>"
      ++ th
      ++ "</div>\n                </div>\n        </div>\n    ")

/-- The filter predicate of renderJobs over a raw record. The size check
on the active-filter set precedes the tag computation, so with no active
filters even a malformed record passes without a throw. -/
def jobVisibleR (filters : List String) (j : JobR) : Except String Bool :=
  if filters.length == 0 then .ok true
  else
    match jobTagListR j with
    | .error e => .error e
    | .ok tags => .ok (filters.all fun f => tags.contains (some f))

/-- A concrete raw job record whose languages field is absent; every other
field is present. -/
def jBad : JobR :=
  { company := some "Acme", logo := some "logo.svg", position := some "Dev",
    role := some "Frontend", level := some "Junior",
    languages := none, tools := some [],
    postedAt := some "1d ago", contract := some "Full Time",
    location := some "Remote", new := some true, featured := some false }

/-! ## Round trip of a tag value through the generated markup -/

/-- HTML metacharacters: double quote, angle brackets, ampersand. -/
def hasHtmlMeta (tag : String) : Bool :=
  tag.data.any fun c => c == '"' || c == '<' || c == '>' || c == '&'

/-- Browser-side read-back of a double-quoted attribute value (external
platform behavior, modelled per the HTML attribute-value grammar): the
value written verbatim between the two double quotes is read back only up
to the first double quote the tag itself contains. -/
def attrReadBack (tag : String) : String :=
  ⟨tag.data.takeWhile fun c => c != '"'⟩

/-! ## Concrete sample data -/

/-- Sample job: Frontend / Junior / HTML, CSS (scenario of the spec). -/
def jobA : Job :=
  { company := "Photosnap", logo := "a.svg", position := "Frontend Developer",
    role := "Frontend", level := "Junior", languages := ["HTML", "CSS"], tools := [],
    postedAt := "1d ago", contract := "Full Time", location := "Remote",
    new := true, featured := false }

/-- Sample job: Backend / Senior / Python / Django (scenario of the spec). -/
def jobB : Job :=
  { company := "Manage", logo := "b.svg", position := "Backend Developer",
    role := "Backend", level := "Senior", languages := ["Python"], tools := ["Django"],
    postedAt := "2d ago", contract := "Part Time", location := "Remote",
    new := false, featured := false }

/-- A DOM whose regions agree with the state `sW` below. -/
def domW : Dom :=
  { jobListHtml := joinAll ((visibleJobs [] ["Frontend"]).map createJobCard),
    filterBarVisible := true,
    filterChipsHtml := joinAll (["Frontend"].map chipHtml) }

/-- A synced application state with one active filter. -/
def sW : AppState :=
  { activeFilters := ["Frontend"], jobs := [], dom := domW }

/-- A raw job record where only languages and tools are present (both
empty); every other field is absent. -/
def jEmptyFields : JobR :=
  ⟨none, none, none, none, none, some [], some [], none, none, none, none, none⟩

/-! ## Helper lemmas -/

lemma visibleJobs_nil (jobs : List Job) : visibleJobs jobs [] = jobs := by
  simp [visibleJobs]

lemma visibleJobs_eq_filter_subset (jobs : List Job) (F : List String) :
    visibleJobs jobs F =
      jobs.filter fun j => decide ((F.toFinset : Finset String) ⊆ jobTagSet j) := by
  unfold visibleJobs
  apply List.filter_congr
  intro j _
  cases F with
  | nil => simp [jobTagSet]
  | cons a l =>
    simp only [List.length_cons, jobTagSet]
    rw [if_neg (by simp), Bool.eq_iff_iff]
    simp [List.all_eq_true, Finset.subset_iff, List.mem_toFinset]

lemma joinAll_append (l₁ l₂ : List String) :
    joinAll (l₁ ++ l₂) = joinAll l₁ ++ joinAll l₂ := by
  induction l₁ with
  | nil => simp [joinAll]
  | cons s rest ih => simp [joinAll, ih, String.append_assoc]

lemma not_isEmpty_of_ne_nil {α : Type} {l : List α} (h : l ≠ []) :
    (!l.isEmpty) = true := by
  cases l with
  | nil => exact absurd rfl h
  | cons a t => rfl

/-! ## Claim theorems -/

/-- C6: for every job list `L`, the visible-jobs computation with an empty
active filter set returns `L` itself (identity when no filters). -/
theorem visibleJobs_empty_filters_identity (L : List Job) :
    visibleJobs L [] = L :=
  visibleJobs_nil L

/-- C1: for every job list `L` and active filter set `F`, `visibleJobs`
returns exactly the sublist of `L`, in the original order of `L`
(`List.filter` preserves order and multiplicity), consisting of the jobs
whose derived tag set (role, level, each language, each tool, duplicates
collapsed) contains every tag of `F`; and when `F` is empty every job is
included. -/
theorem visibleJobs_filter_characterization (L : List Job) (F : List String) :
    (visibleJobs L F =
       L.filter fun j => decide ((F.toFinset : Finset String) ⊆ jobTagSet j))
    ∧ (F = [] → visibleJobs L F = L) := by
  refine ⟨visibleJobs_eq_filter_subset L F, ?_⟩
  rintro rfl
  exact visibleJobs_nil L

/-- Witness for C1 at the concrete two-job list of the spec scenario and
the empty filter set. -/
theorem visibleJobs_filter_characterization_witness :
    visibleJobs [jobA, jobB] [] = [jobA, jobB] :=
  (visibleJobs_filter_characterization [jobA, jobB] []).2 rfl

/-- C4: for every prior state, the clear-all transition leaves the
active-filter set empty, hides the filter bar, re-renders the job list so
that every job is shown, and leaves the job list data untouched. -/
theorem clearFilters_spec (s : AppState) :
    (clearFilters s).activeFilters = []
    ∧ (clearFilters s).dom.filterBarVisible = false
    ∧ (clearFilters s).dom.jobListHtml = joinAll (s.jobs.map createJobCard)
    ∧ (clearFilters s).jobs = s.jobs := by
  refine ⟨rfl, ?_, ?_, rfl⟩ <;>
    simp [clearFilters, updateFilterBar, renderJobsDom, visibleJobs_nil]

/-- C5: rendering the filter bar with a non-empty active-filter set shows
the bar containing exactly one removable chip per active tag (the chip
container is the join of one chip per filter, in order), each chip
carrying the tag value in its data-filter removal-lookup attribute; with
an empty set the bar is hidden entirely. -/
theorem updateFilterBar_chip_spec (filters : List String) (dom : Dom) :
    (filters ≠ [] →
       (updateFilterBar filters dom).filterBarVisible = true
       ∧ (updateFilterBar filters dom).filterChipsHtml = joinAll (filters.map chipHtml)
       ∧ ∀ f ∈ filters, ∃ pre post,
           (updateFilterBar filters dom).filterChipsHtml
             = pre ++ ("data-filter=\"" ++ f ++ "\"") ++ post)
    ∧ (filters = [] → (updateFilterBar filters dom).filterBarVisible = false) := by
  constructor
  · intro hne
    have hlen : filters.length > 0 := List.length_pos.mpr hne
    refine ⟨by simp [updateFilterBar, hlen], by simp [updateFilterBar, hlen], ?_⟩
    intro f hf
    obtain ⟨l₁, l₂, rfl⟩ := List.append_of_mem hf
    refine ⟨joinAll (l₁.map chipHtml)
        ++ ("\n            <span class=\"badge btn2\">\n                "
            ++ f
            ++ "\n                <button type=\"button\" class=\"btn-close close btn-close-white\" aria-label=\"Close\" "),
      "></button> \n            </span>\n        " ++ joinAll (l₂.map chipHtml), ?_⟩
    have hchips : (updateFilterBar (l₁ ++ f :: l₂) dom).filterChipsHtml
        = joinAll ((l₁ ++ f :: l₂).map chipHtml) := by
      simp [updateFilterBar, hlen]
    rw [hchips, List.map_append, joinAll_append, List.map_cons]
    simp only [joinAll, chipHtml, String.append_assoc]
  · intro he
    simp [updateFilterBar, he]

/-- Witness for C5 at a one-filter set. -/
theorem updateFilterBar_chip_spec_witness :
    (updateFilterBar ["Frontend"] ⟨"", false, ""⟩).filterBarVisible = true :=
  ((updateFilterBar_chip_spec ["Frontend"] ⟨"", false, ""⟩).1 (by decide)).1

/-- C7: adding a tag that is already in the active-filter set leaves the
set unchanged and leaves the rendered job-list and filter-bar output
exactly as before (for any state whose DOM agrees with its data, the
add-filter transition is the identity). -/
theorem addFilter_idempotent (f : String) (s : AppState)
    (hf : f ∈ s.activeFilters) (hs : Synced s) : addFilter f s = s := by
  obtain ⟨h1, h2, h3⟩ := hs
  have hne : s.activeFilters ≠ [] := List.ne_nil_of_mem hf
  have hlen : s.activeFilters.length > 0 := List.length_pos.mpr hne
  have hvis : s.dom.filterBarVisible = true := by
    rw [h2]; exact not_isEmpty_of_ne_nil hne
  simp only [addFilter, if_pos hf, renderJobsDom, updateFilterBar, if_pos hlen]
  refine AppState.ext rfl rfl (Dom.ext ?_ ?_ ?_)
  · exact h1.symm
  · exact hvis.symm
  · exact (h3 hne).symm

/-- Witness for C7: adding the already-active tag to the synced sample
state changes nothing. -/
theorem addFilter_idempotent_witness : addFilter "Frontend" sW = sW :=
  addFilter_idempotent "Frontend" sW (by decide) ⟨rfl, rfl, fun _ => rfl⟩

/-- C8: removing a tag that is not in the active-filter set is a no-op:
for any state whose DOM agrees with its data, the remove-filter
transition with an absent tag is the identity. -/
theorem removeFilter_absent_noop (f : String) (s : AppState)
    (hf : f ∉ s.activeFilters) (hs : Synced s) : removeFilter f s = s := by
  obtain ⟨h1, h2, h3⟩ := hs
  have hfil : (s.activeFilters.filter fun x => x != f) = s.activeFilters :=
    List.filter_eq_self.mpr fun a ha => by
      simp only [bne_iff_ne, ne_eq, decide_eq_true_eq]
      exact fun hEq => hf (hEq ▸ ha)
  simp only [removeFilter, hfil, renderJobsDom, updateFilterBar]
  by_cases hne : s.activeFilters = []
  · have hlen : ¬ s.activeFilters.length > 0 := by simp [hne]
    rw [if_neg hlen]
    refine AppState.ext rfl rfl (Dom.ext ?_ ?_ ?_)
    · exact h1.symm
    · rw [h2, hne]; rfl
    · rfl
  · have hlen : s.activeFilters.length > 0 := List.length_pos.mpr hne
    rw [if_pos hlen]
    refine AppState.ext rfl rfl (Dom.ext ?_ ?_ ?_)
    · exact h1.symm
    · rw [h2]; exact (not_isEmpty_of_ne_nil hne).symm
    · exact (h3 hne).symm

/-- Witness for C8: removing an inactive tag from the synced sample state
changes nothing. -/
theorem removeFilter_absent_noop_witness : removeFilter "Backend" sW = sW :=
  removeFilter_absent_noop "Backend" sW (by decide) ⟨rfl, rfl, fun _ => rfl⟩

/-- C9: the rendering operations never mutate the job list or the
active-filter set (`createJobCard` is a pure `Job → String` function by
its type), and the interaction transitions never mutate the job list:
only the data loader assigns it. -/
theorem render_frame_conditions (s : AppState) (f : String) :
    (renderJobsS s).jobs = s.jobs
    ∧ (renderJobsS s).activeFilters = s.activeFilters
    ∧ (updateFilterBarS s).jobs = s.jobs
    ∧ (updateFilterBarS s).activeFilters = s.activeFilters
    ∧ (addFilter f s).jobs = s.jobs
    ∧ (removeFilter f s).jobs = s.jobs
    ∧ (clearFilters s).jobs = s.jobs :=
  ⟨rfl, rfl, rfl, rfl, rfl, rfl, rfl⟩

/-- C3: for every failing fetch outcome (network error, non-success HTTP
status, or a payload that fails to parse as JSON) and any prior job list,
the loader logs the failure, leaves the job list unchanged (hence empty
at startup), does not invoke the renderer, and — by totality of
`fetchJobs`, the catch-all wrapper — raises no uncaught error. -/
theorem fetchJobs_failure_spec (jobs0 : List Job) (o : FetchOutcome)
    (h : o.failing) :
    fetchJobs jobs0 o = ⟨jobs0, true, false⟩ := by
  cases o with
  | networkError => rfl
  | response r =>
    simp only [FetchOutcome.failing] at h
    rcases h with h | h
    · simp [fetchJobs, fetchJobsTry, h]
    · cases hok : r.ok
      · simp [fetchJobs, fetchJobsTry, hok]
      · simp [fetchJobs, fetchJobsTry, hok, h]

/-- Witness for C3: a network error with the startup-empty job list. -/
theorem fetchJobs_failure_spec_witness :
    fetchJobs [] FetchOutcome.networkError = ⟨[], true, false⟩ :=
  fetchJobs_failure_spec [] FetchOutcome.networkError True.intro

/-- C2 counterexample: on a job record whose languages field is absent,
the tag computation shared by the filter engine and the card renderer
throws a TypeError (spreading an undefined value), so neither the filter
engine (with a non-empty filter set) nor the card renderer completes. -/
theorem missing_languages_throws :
    (jobTagListR jBad).isOk = false
    ∧ (createJobCardR jBad).isOk = false
    ∧ (jobVisibleR ["Frontend"] jBad).isOk = false :=
  ⟨rfl, rfl, rfl⟩

/-- C2 amended: a job record whose languages and tools fields are both
present completes in the filter engine and the card renderer without an
error, whatever other fields are missing (missing text fields render as
the text undefined, missing booleans are falsy); only the two spread
fields are required. -/
theorem spread_fields_present_tolerated (j : JobR)
    (hl : j.languages.isSome = true) (ht : j.tools.isSome = true) :
    (jobTagListR j).isOk = true
    ∧ (createJobCardR j).isOk = true
    ∧ ∀ filters : List String, (jobVisibleR filters j).isOk = true := by
  obtain ⟨ls, hls⟩ := Option.isSome_iff_exists.mp hl
  obtain ⟨ts, hts⟩ := Option.isSome_iff_exists.mp ht
  have htag : jobTagListR j = .ok ([j.role, j.level] ++ ls.map some ++ ts.map some) := by
    simp [jobTagListR, spreadR, hls, hts]
  have hth : tagsHtmlR j
      = .ok (joinAll ((([j.role, j.level] ++ ls.map some ++ ts.map some)).map
          fun t => tagSpanHtml (jsStr t))) := by
    unfold tagsHtmlR
    rw [htag]
  refine ⟨?_, ?_, ?_⟩
  · rw [htag]
    rfl
  · unfold createJobCardR
    rw [hth]
    rfl
  · intro filters
    unfold jobVisibleR
    split
    · rfl
    · rw [htag]
      rfl

/-- Witness for C2 amended: a record with empty languages and tools and
every other field absent is tolerated by the tag computation. -/
theorem spread_fields_present_tolerated_witness :
    (jobTagListR jEmptyFields).isOk = true :=
  (spread_fields_present_tolerated jEmptyFields rfl rfl).1

/-- C10: tag values are interpolated verbatim, with no escaping, into the
visible text and the data-tag / data-filter attributes of the generated
markup (the two structural equations); consequently the
render-then-click-lookup round trip is guaranteed to return the original
tag value for tags containing no HTML metacharacters, and for some tag
containing a double quote the attribute value read back differs from the
tag. -/
theorem tag_markup_roundtrip (tag : String) :
    (tagSpanHtml tag
       = "\n        <span class=\"badge tag filter-tag\" data-tag=\"" ++ tag ++ "\">"
         ++ tag ++ "</span>\n    ")
    ∧ (chipHtml tag
       = "\n            <span class=\"badge btn2\">\n                "
         ++ tag
         ++ "\n                <button type=\"button\" class=\"btn-close close btn-close-white\" aria-label=\"Close\" "
         ++ ("data-filter=\"" ++ tag ++ "\"")
         ++ "></button> \n            </span>\n        ")
    ∧ (hasHtmlMeta tag = false → attrReadBack tag = tag)
    ∧ attrReadBack "Front\"end" ≠ "Front\"end" := by
  refine ⟨rfl, rfl, ?_, by decide⟩
  intro hm
  have hall : tag.data.takeWhile (fun c => c != '"') = tag.data := by
    rw [List.takeWhile_eq_self_iff]
    intro c hc
    simp only [hasHtmlMeta, List.any_eq_false] at hm
    have := hm c hc
    simp only [Bool.or_eq_true, not_or] at this
    simpa [bne_iff_ne] using this.1.1.1
  unfold attrReadBack
  rw [hall]

/-- Witness for C10: a metacharacter-free tag survives the round trip. -/
theorem tag_markup_roundtrip_witness :
    attrReadBack "Frontend" = "Frontend" :=
  (tag_markup_roundtrip "Frontend").2.2.1 (by decide)

end JobListing
